import Mathlib

/-!
Shallow embedding of the escape-room coordination server (src/server.py).

The server keeps one global mutable dictionary `game_state` and mutates it
from socket-event handlers.  Here the dictionary becomes the structure
`GameState` and each handler becomes a pure function
`GameState → GameState × List (Dest × Event)` returning the new state and
the socket messages the handler emits, in emission order.  A message is
tagged `Dest.requester` when the Python code uses the request-scoped
`emit(...)` and `Dest.everyone` when it uses the broadcasting
`socketio.emit(..., namespace='/')`.

Timestamps.  Python records `datetime.now()` values and compares
`abs((t1 - t2).total_seconds()) <= 10`.  A `datetime` difference is an
exact count of microseconds, and for microsecond-valued deltas the float
comparison `total_seconds() <= 10` holds exactly when the delta is at most
10_000_000 microseconds (the nearest floats to k/1e6 for k near 1e7 stay
on the same side of 10.0).  So timestamps are embedded as `Int`
microseconds and the window as `10 * 1000000` microseconds.

The background countdown loop `countdown_timer` is embedded as a small
step function over a program counter (`TickerPc`): one step is either one
iteration of the `while` loop or, when the loop condition fails, the
one-shot epilogue that fires the expiry transition and terminates the
thread.  `Sys` adds the set of spawned ticker threads so that statements
about duplicate tickers can be made.
-/

/-- Physical station that can press an abort button. -/
inductive Location where
  | reception
  | server_room
deriving DecidableEq

/-- The `abort_buttons` sub-dictionary: per-location optional press time
(microseconds). -/
structure AbortButtons where
  reception : Option Int
  server_room : Option Int
deriving DecidableEq

/-- The global `game_state` dictionary of server.py. -/
structure GameState where
  timer_running : Bool
  time_remaining : Int
  start_time : Option Int
  reception_unlocked : Bool
  transmission_shut_down : Bool
  self_destruct_active : Bool
  self_destruct_aborted : Bool
  abort_buttons : AbortButtons
deriving DecidableEq

/-- Destination of an emitted socket message: `requester` for the
request-scoped `emit`, `everyone` for `socketio.emit(..., namespace='/')`. -/
inductive Dest where
  | requester
  | everyone
deriving DecidableEq

/-- Socket events emitted by the server handlers.  Payloads are reduced to
the fields the handlers actually compute; time differences are carried as
exact microsecond counts instead of the rounded float of the source. -/
inductive Event where
  | timer_started
  | play_audio (clip : String)
  | timer_update (remaining : Int)
  | game_over
  | timer_paused
  | timer_resumed
  | timer_stopped
  | game_reset
  | transmission_verifying (code : String)
  | transmission_shutdown (success : Bool)
  | self_destruct_abort_success (diffMicros : Nat)
  | abort_failed_full_reset (diffMicros : Nat)
  | abort_button_pressed (location waiting_for : Location)
deriving DecidableEq

/-- TRANSMISSION_CODE constant of server.py. -/
def TRANSMISSION_CODE : String := "4815162342"

/-- ABORT_WINDOW_SECONDS constant of server.py. -/
def ABORT_WINDOW_SECONDS : Nat := 10

/-- Abort window expressed in the microsecond time unit of the embedding. -/
def ABORT_WINDOW_MICROS : Nat := ABORT_WINDOW_SECONDS * 1000000

/-- Full countdown duration in seconds (the literal 1800 of server.py). -/
def FULL_DURATION : Int := 1800

/-- Initial value of the `game_state` dictionary. -/
def initial_game_state : GameState :=
  { timer_running := false
    time_remaining := FULL_DURATION
    start_time := none
    reception_unlocked := false
    transmission_shut_down := false
    self_destruct_active := false
    self_destruct_aborted := false
    abort_buttons := { reception := none, server_room := none } }

/-- handle_start_timer: sets every field of the state (start time to the
current clock) and broadcasts `timer_started` and a start audio cue.  The
spawning of the countdown thread is modelled at the `Sys` level. -/
def handle_start_timer (_s : GameState) (now : Int) :
    GameState × List (Dest × Event) :=
  ({ timer_running := true
     time_remaining := 1800
     start_time := some now
     reception_unlocked := false
     transmission_shut_down := false
     self_destruct_active := false
     self_destruct_aborted := false
     abort_buttons := { reception := none, server_room := none } },
   [(Dest.everyone, Event.timer_started),
    (Dest.everyone, Event.play_audio "start")])

/-- handle_pause_timer: only acts when the timer is running. -/
def handle_pause_timer (s : GameState) : GameState × List (Dest × Event) :=
  if s.timer_running then
    ({ s with timer_running := false }, [(Dest.everyone, Event.timer_paused)])
  else
    (s, [])

/-- handle_resume_timer: only acts when the timer is not running and time
remains.  The spawning of a fresh countdown thread is modelled at the
`Sys` level. -/
def handle_resume_timer (s : GameState) : GameState × List (Dest × Event) :=
  if !s.timer_running && s.time_remaining > 0 then
    ({ s with timer_running := true }, [(Dest.everyone, Event.timer_resumed)])
  else
    (s, [])

/-- handle_stop_timer: resets every field of the state except
`start_time`, which the Python handler does not touch. -/
def handle_stop_timer (s : GameState) : GameState × List (Dest × Event) :=
  ({ s with
      timer_running := false
      time_remaining := 1800
      reception_unlocked := false
      transmission_shut_down := false
      self_destruct_active := false
      self_destruct_aborted := false
      abort_buttons := { reception := none, server_room := none } },
   [(Dest.everyone, Event.timer_stopped)])

/-- handle_reset_game: resets every field of the state, including
`start_time`. -/
def handle_reset_game (_s : GameState) : GameState × List (Dest × Event) :=
  ({ timer_running := false
     time_remaining := 1800
     start_time := none
     reception_unlocked := false
     transmission_shut_down := false
     self_destruct_active := false
     self_destruct_aborted := false
     abort_buttons := { reception := none, server_room := none } },
   [(Dest.everyone, Event.game_reset)])

/-- handle_transmission_code: emits a verifying message to the requester,
then checks the code.  There is no guard on the current game state: a
correct code always activates the self-destruct flags and clears the abort
presses; a wrong code changes nothing and is rejected to the requester. -/
def handle_transmission_code (s : GameState) (code : String) :
    GameState × List (Dest × Event) :=
  if code = TRANSMISSION_CODE then
    ({ s with
        transmission_shut_down := true
        self_destruct_active := true
        abort_buttons := { reception := none, server_room := none } },
     [(Dest.requester, Event.transmission_verifying code),
      (Dest.everyone, Event.transmission_shutdown true),
      (Dest.everyone, Event.play_audio "alarm")])
  else
    (s, [(Dest.requester, Event.transmission_verifying code),
         (Dest.requester, Event.transmission_shutdown false)])

/-- Record a press time for one location, keeping the other. -/
def set_button (b : AbortButtons) (loc : Location) (t : Int) : AbortButtons :=
  match loc with
  | Location.reception => { b with reception := some t }
  | Location.server_room => { b with server_room := some t }

/-- Read one location's recorded press time. -/
def get_button (b : AbortButtons) : Location → Option Int
  | Location.reception => b.reception
  | Location.server_room => b.server_room

/-- The `waiting_for` computation of handle_abort_button. -/
def other_location : Location → Location
  | Location.reception => Location.server_room
  | Location.server_room => Location.reception

/-- handle_abort_button: ignored unless self-destruct is active and not yet
aborted; records the press, and once both locations have a press decides
success (within the 10-second window) or full reset. -/
def handle_abort_button (s : GameState) (loc : Location) (now : Int) :
    GameState × List (Dest × Event) :=
  if !s.self_destruct_active || s.self_destruct_aborted then
    (s, [])
  else
    let buttons := set_button s.abort_buttons loc now
    let s1 := { s with abort_buttons := buttons }
    match buttons.reception, buttons.server_room with
    | some reception_time, some server_time =>
      let time_diff := (reception_time - server_time).natAbs
      if time_diff ≤ ABORT_WINDOW_MICROS then
        ({ s1 with
            self_destruct_aborted := true
            self_destruct_active := false
            timer_running := false
            reception_unlocked := true },
         [(Dest.everyone, Event.self_destruct_abort_success time_diff)])
      else
        ({ s1 with
            abort_buttons := { reception := none, server_room := none }
            self_destruct_active := false
            transmission_shut_down := false },
         [(Dest.everyone, Event.abort_failed_full_reset time_diff)])
    | _, _ =>
      (s1, [(Dest.everyone,
             Event.abort_button_pressed loc (other_location loc))])

/-- The single authoritative phase of the specification's state machine.
server.py stores no such value; `phaseOf` below abstracts it from the
boolean flags. -/
inductive Phase where
  | Idle
  | Running
  | Paused
  | Expired
  | TransmissionDown
  | Aborted
deriving DecidableEq

/-- Abstraction from the boolean-flag state of server.py to the spec's
phase.  Priorities follow the handlers' observable behaviour: a state with
`self_destruct_aborted` set ignores abort presses like `Aborted`, else an
active self-destruct is `TransmissionDown`, else a running timer is
`Running`, else zero remaining time is `Expired`.  The code cannot
distinguish `Idle` from `Paused` by behaviour (both are non-running states
with time left, and both `start_timer` and `resume_timer` act on them
identically), so a full remaining countdown is classified `Idle` and a
partial one `Paused`. -/
def phaseOf (s : GameState) : Phase :=
  if s.self_destruct_aborted then Phase.Aborted
  else if s.self_destruct_active then Phase.TransmissionDown
  else if s.timer_running then Phase.Running
  else if s.time_remaining = 0 then Phase.Expired
  else if s.time_remaining < FULL_DURATION then Phase.Paused
  else Phase.Idle

/-- Program counter of one spawned countdown thread: either still at the
head of the `while` loop of countdown_timer, or terminated. -/
inductive TickerPc where
  | looping
  | finished
deriving DecidableEq, BEq

/-- Result of one countdown-thread step. -/
structure TickerResult where
  pc : TickerPc
  st : GameState
  evs : List (Dest × Event)
deriving DecidableEq

/-- One step of the countdown_timer thread.  While the loop condition
`timer_running and time_remaining > 0` holds, an iteration decrements the
remaining time and broadcasts it; when it fails, the epilogue runs once:
if time ran out it fires the expiry transition (timer stopped, exit
unlocked, `game_over` broadcast) and in any case the thread terminates. -/
def countdown_timer_step (pc : TickerPc) (s : GameState) : TickerResult :=
  match pc with
  | TickerPc.finished => { pc := TickerPc.finished, st := s, evs := [] }
  | TickerPc.looping =>
    if s.timer_running && s.time_remaining > 0 then
      { pc := TickerPc.looping
        st := { s with time_remaining := s.time_remaining - 1 }
        evs := [(Dest.everyone, Event.timer_update (s.time_remaining - 1))] }
    else if s.time_remaining ≤ 0 then
      { pc := TickerPc.finished
        st := { s with timer_running := false, reception_unlocked := true }
        evs := [(Dest.everyone, Event.game_over)] }
    else
      { pc := TickerPc.finished, st := s, evs := [] }

/-- Whole-process state: the shared game state plus the program counters
of every countdown thread ever spawned with start_background_task. -/
structure Sys where
  gs : GameState
  tickers : List TickerPc
deriving DecidableEq

/-- Process state at startup: initial game state, no countdown thread. -/
def initSys : Sys := { gs := initial_game_state, tickers := [] }

/-- start_timer at process level: the handler updates the state and then
unconditionally spawns a fresh countdown thread. -/
def sys_start (sys : Sys) (now : Int) : Sys :=
  { gs := (handle_start_timer sys.gs now).1
    tickers := TickerPc.looping :: sys.tickers }

/-- resume_timer at process level: a countdown thread is spawned only when
the handler's guard (timer not running, time left) passes. -/
def sys_resume (sys : Sys) : Sys :=
  if !sys.gs.timer_running && sys.gs.time_remaining > 0 then
    { gs := (handle_resume_timer sys.gs).1
      tickers := TickerPc.looping :: sys.tickers }
  else
    sys

/-- Run one step of the i-th countdown thread against the shared state. -/
def sys_tick (sys : Sys) (i : Nat) : Sys × List (Dest × Event) :=
  match sys.tickers.get? i with
  | none => (sys, [])
  | some pc =>
    let r := countdown_timer_step pc sys.gs
    ({ gs := r.st, tickers := sys.tickers.set i r.pc }, r.evs)

/-- Number of countdown threads still executing their loop. -/
def live_tickers (sys : Sys) : Nat :=
  sys.tickers.count TickerPc.looping

/-- States reachable from startup by handler calls and countdown steps,
restricted so that the correct transmission code is never submitted after
a successful abort (submitting it again in that situation is the one
command sequence that breaks the selfDestructActive/TransmissionDown
correspondence). -/
inductive ReachableNoResubmit : GameState → Prop where
  | init : ReachableNoResubmit initial_game_state
  | start (s : GameState) (now : Int) : ReachableNoResubmit s →
      ReachableNoResubmit (handle_start_timer s now).1
  | tick (s : GameState) (pc : TickerPc) : ReachableNoResubmit s →
      ReachableNoResubmit (countdown_timer_step pc s).st
  | pause (s : GameState) : ReachableNoResubmit s →
      ReachableNoResubmit (handle_pause_timer s).1
  | resume (s : GameState) : ReachableNoResubmit s →
      ReachableNoResubmit (handle_resume_timer s).1
  | stop (s : GameState) : ReachableNoResubmit s →
      ReachableNoResubmit (handle_stop_timer s).1
  | reset (s : GameState) : ReachableNoResubmit s →
      ReachableNoResubmit (handle_reset_game s).1
  | code (s : GameState) (c : String) : ReachableNoResubmit s →
      (c = TRANSMISSION_CODE → s.self_destruct_aborted = false) →
      ReachableNoResubmit (handle_transmission_code s c).1
  | press (s : GameState) (loc : Location) (now : Int) :
      ReachableNoResubmit s →
      ReachableNoResubmit (handle_abort_button s loc now).1

theorem phaseOf_eq_transmissionDown (s : GameState) :
    phaseOf s = Phase.TransmissionDown ↔
      s.self_destruct_active = true ∧ s.self_destruct_aborted = false := by
  unfold phaseOf
  repeat' split
  all_goals simp_all

theorem phaseOf_eq_running (s : GameState) :
    phaseOf s = Phase.Running ↔
      s.self_destruct_aborted = false ∧ s.self_destruct_active = false ∧
        s.timer_running = true := by
  unfold phaseOf
  repeat' split
  all_goals simp_all

/-- Game state during a self-destruct episode with the given recorded
abort presses, used to instantiate the abort theorems. -/
def episode_state (rec srv : Option Int) : GameState :=
  { initial_game_state with
      transmission_shut_down := true
      self_destruct_active := true
      abort_buttons := { reception := rec, server_room := srv } }

/-- C1: with the reception press recorded at t1 and the server_room press
arriving at t2, the simultaneity decision is abs(t1 - t2) ≤ 10 seconds
inclusive: a delta of at most the window (hence also exactly 10.00 s)
yields the success outcome, and any delta strictly beyond 10 s (e.g.
10.01 s) yields the failed-reset outcome. -/
theorem c1_abort_window_boundary (s : GameState) (t1 t2 : Int)
    (hac : s.self_destruct_active = true)
    (hab : s.self_destruct_aborted = false)
    (hrec : s.abort_buttons.reception = some t1) :
    ((t1 - t2).natAbs ≤ ABORT_WINDOW_MICROS →
        (handle_abort_button s Location.server_room t2).1.self_destruct_aborted
            = true ∧
        (handle_abort_button s Location.server_room t2).2 =
          [(Dest.everyone,
            Event.self_destruct_abort_success (t1 - t2).natAbs)]) ∧
    (ABORT_WINDOW_MICROS < (t1 - t2).natAbs →
        (handle_abort_button s Location.server_room t2).1.self_destruct_aborted
            = false ∧
        (handle_abort_button s Location.server_room t2).1.abort_buttons =
          { reception := none, server_room := none } ∧
        (handle_abort_button s Location.server_room t2).2 =
          [(Dest.everyone,
            Event.abort_failed_full_reset (t1 - t2).natAbs)]) := by
  constructor
  · intro h
    unfold handle_abort_button set_button
    simp [hac, hab, hrec, h]
  · intro h
    have hn : ¬ (t1 - t2).natAbs ≤ ABORT_WINDOW_MICROS := Nat.not_le.mpr h
    unfold handle_abort_button set_button
    simp [hac, hab, hrec, hn]

/-- Witness for C1: a 10.00-second delta succeeds and a 10.01-second delta
resets. -/
theorem c1_witness :
    (handle_abort_button (episode_state (some 10000000) none)
        Location.server_room 0).1.self_destruct_aborted = true ∧
    (handle_abort_button (episode_state (some 10010000) none)
        Location.server_room 0).1.self_destruct_aborted = false := by
  constructor
  · exact ((c1_abort_window_boundary (episode_state (some 10000000) none)
      10000000 0 rfl rfl rfl).1 (by decide)).1
  · exact ((c1_abort_window_boundary (episode_state (some 10010000) none)
      10010000 0 rfl rfl rfl).2 (by decide)).1

/-- Counterexample to C2: the initial state is in phase Idle (not
Running), yet submitting the correct transmission code there is not a
no-op — it activates the self-destruct flags. -/
theorem c2_counterexample :
    phaseOf initial_game_state = Phase.Idle ∧
    (handle_transmission_code initial_game_state TRANSMISSION_CODE).1 ≠
      initial_game_state ∧
    (handle_transmission_code initial_game_state
        TRANSMISSION_CODE).1.self_destruct_active = true := by
  decide

/-- C2 amended: handle_transmission_code has no phase guard.  Submitting
an incorrect code in any state is a no-op on the game state, reported only
to the requester as a rejection; submitting the correct code in any state
(Running or not) sets transmission_shut_down and self_destruct_active and
clears the abort presses, leaving the other fields unchanged. -/
theorem c2_code_submission_no_guard (s : GameState) (c : String) :
    (c ≠ TRANSMISSION_CODE →
        handle_transmission_code s c =
          (s, [(Dest.requester, Event.transmission_verifying c),
               (Dest.requester, Event.transmission_shutdown false)])) ∧
    (handle_transmission_code s TRANSMISSION_CODE).1 =
      { s with
          transmission_shut_down := true
          self_destruct_active := true
          abort_buttons := { reception := none, server_room := none } } := by
  constructor
  · intro hc
    unfold handle_transmission_code
    simp [hc]
  · unfold handle_transmission_code
    simp

/-- Witness for C2 amended: a wrong code is a state no-op from the initial
state, and the correct code fires even from the initial (Idle) state. -/
theorem c2_witness :
    handle_transmission_code initial_game_state "0000" =
      (initial_game_state,
       [(Dest.requester, Event.transmission_verifying "0000"),
        (Dest.requester, Event.transmission_shutdown false)]) ∧
    (handle_transmission_code initial_game_state TRANSMISSION_CODE).1 =
      { initial_game_state with
          transmission_shut_down := true
          self_destruct_active := true
          abort_buttons := { reception := none, server_room := none } } := by
  exact ⟨(c2_code_submission_no_guard initial_game_state "0000").1 (by decide),
         (c2_code_submission_no_guard initial_game_state "0000").2⟩

theorem natAbs_sub_symm (a b : Int) : (a - b).natAbs = (b - a).natAbs := by
  omega

/-- C3: in phase TransmissionDown, an abort press for one location while
the other location's press is recorded within the 10-second window yields
phase Aborted with the exit unlocked and the countdown no longer ticking:
the running flag is cleared and a countdown-thread step no longer changes
the state. -/
theorem c3_abort_success_within_window (s : GameState) (loc : Location)
    (tOld tNew : Int)
    (hph : phaseOf s = Phase.TransmissionDown)
    (hother : get_button s.abort_buttons (other_location loc) = some tOld)
    (hwin : (tNew - tOld).natAbs ≤ ABORT_WINDOW_MICROS) :
    phaseOf (handle_abort_button s loc tNew).1 = Phase.Aborted ∧
    (handle_abort_button s loc tNew).1.reception_unlocked = true ∧
    (handle_abort_button s loc tNew).1.timer_running = false ∧
    (countdown_timer_step TickerPc.looping
        (handle_abort_button s loc tNew).1).st =
      (handle_abort_button s loc tNew).1 := by
  obtain ⟨hac, hab⟩ := (phaseOf_eq_transmissionDown s).1 hph
  cases loc
  case reception =>
    simp only [other_location, get_button] at hother
    unfold handle_abort_button set_button
    simp [hac, hab, hother, hwin, phaseOf, countdown_timer_step]
    split <;> simp
  case server_room =>
    simp only [other_location, get_button] at hother
    rw [natAbs_sub_symm] at hwin
    unfold handle_abort_button set_button
    simp [hac, hab, hother, hwin, phaseOf, countdown_timer_step]
    split <;> simp

/-- Witness for C3: presses seven seconds apart succeed. -/
theorem c3_witness :
    phaseOf (handle_abort_button (episode_state (some 0) none)
        Location.server_room 7000000).1 = Phase.Aborted ∧
    (handle_abort_button (episode_state (some 0) none)
        Location.server_room 7000000).1.reception_unlocked = true ∧
    (handle_abort_button (episode_state (some 0) none)
        Location.server_room 7000000).1.timer_running = false ∧
    (countdown_timer_step TickerPc.looping
        (handle_abort_button (episode_state (some 0) none)
          Location.server_room 7000000).1).st =
      (handle_abort_button (episode_state (some 0) none)
        Location.server_room 7000000).1 := by
  exact c3_abort_success_within_window (episode_state (some 0) none)
    Location.server_room 0 7000000 (by decide) rfl (by decide)

/-- Reachable state used against C4: start the timer, let it tick once,
submit the correct code, pause the countdown, then press the reception
abort button — a TransmissionDown state whose timer is paused. -/
def paused_episode_state : GameState :=
  (handle_abort_button
    (handle_pause_timer
      (handle_transmission_code
        (countdown_timer_step TickerPc.looping
          (handle_start_timer initial_game_state 0).1).st
        TRANSMISSION_CODE).1).1
    Location.reception 0).1

/-- Counterexample to C4: from a reachable TransmissionDown state whose
countdown was paused, a server_room press fifteen seconds after the
recorded reception press reverts the phase to Paused, not Running. -/
theorem c4_counterexample :
    phaseOf paused_episode_state = Phase.TransmissionDown ∧
    get_button paused_episode_state.abort_buttons
      (other_location Location.server_room) = some 0 ∧
    ABORT_WINDOW_MICROS < ((15000000 : Int) - 0).natAbs ∧
    phaseOf (handle_abort_button paused_episode_state
        Location.server_room 15000000).1 = Phase.Paused := by
  decide

/-- C4 amended: in phase TransmissionDown, an abort press whose delta to
the other location's recorded press exceeds the window clears both
presses, clears selfDestructActive and transmission_shut_down, and leaves
every other field (including the timer flag) unchanged; the phase reverts
to Running exactly when the countdown was still running at the press (a
paused countdown reverts to a non-Running phase instead). -/
theorem c4_abort_failed_full_reset (s : GameState) (loc : Location)
    (tOld tNew : Int)
    (hph : phaseOf s = Phase.TransmissionDown)
    (hother : get_button s.abort_buttons (other_location loc) = some tOld)
    (hwin : ABORT_WINDOW_MICROS < (tNew - tOld).natAbs) :
    (handle_abort_button s loc tNew).1 =
      { s with
          abort_buttons := { reception := none, server_room := none }
          self_destruct_active := false
          transmission_shut_down := false } ∧
    (s.timer_running = true →
      phaseOf (handle_abort_button s loc tNew).1 = Phase.Running) := by
  obtain ⟨hac, hab⟩ := (phaseOf_eq_transmissionDown s).1 hph
  have h1 : (handle_abort_button s loc tNew).1 =
      { s with
          abort_buttons := { reception := none, server_room := none }
          self_destruct_active := false
          transmission_shut_down := false } := by
    cases loc
    case reception =>
      simp only [other_location, get_button] at hother
      have hn : ¬ (tNew - tOld).natAbs ≤ ABORT_WINDOW_MICROS :=
        Nat.not_le.mpr hwin
      unfold handle_abort_button set_button
      simp [hac, hab, hother, hn]
    case server_room =>
      simp only [other_location, get_button] at hother
      rw [natAbs_sub_symm] at hwin
      have hn : ¬ (tOld - tNew).natAbs ≤ ABORT_WINDOW_MICROS :=
        Nat.not_le.mpr hwin
      unfold handle_abort_button set_button
      simp [hac, hab, hother, hn]
  refine ⟨h1, ?_⟩
  intro hrun
  rw [h1, phaseOf_eq_running]
  exact ⟨hab, rfl, hrun⟩

/-- Witness for C4 amended: with the countdown still running, a
fifteen-second delta resets the episode and the phase is Running again. -/
theorem c4_witness :
    (handle_abort_button
        { episode_state (some 0) none with timer_running := true }
        Location.server_room 15000000).1 =
      { { episode_state (some 0) none with timer_running := true } with
          abort_buttons := { reception := none, server_room := none }
          self_destruct_active := false
          transmission_shut_down := false } ∧
    phaseOf (handle_abort_button
        { episode_state (some 0) none with timer_running := true }
        Location.server_room 15000000).1 = Phase.Running := by
  refine ⟨(c4_abort_failed_full_reset
      { episode_state (some 0) none with timer_running := true }
      Location.server_room 0 15000000 (by decide) rfl (by decide)).1,
    (c4_abort_failed_full_reset
      { episode_state (some 0) none with timer_running := true }
      Location.server_room 0 15000000 (by decide) rfl (by decide)).2 rfl⟩

/-- C5: handle_start_timer spawns a countdown thread unconditionally, so
issuing start_timer while a ticker is already active leaves two live tick
loops whose iterations each decrement the shared remaining time — one
step of each thread takes the 1800-second countdown to 1798.  The resume
path, by contrast, is guarded and spawns nothing while the timer runs. -/
theorem c5_double_start_two_tickers :
    live_tickers (sys_start (sys_start initSys 0) 0) = 2 ∧
    (sys_start (sys_start initSys 0) 0).gs.timer_running = true ∧
    (sys_start (sys_start initSys 0) 0).gs.time_remaining = 1800 ∧
    ((sys_tick (sys_tick (sys_start (sys_start initSys 0) 0) 0).1
        1).1).gs.time_remaining = 1798 ∧
    sys_resume (sys_start initSys 0) = sys_start initSys 0 := by
  decide

/-- C6: while the phase is Running, a step of the countdown thread with
time left decrements the remaining time by exactly one and broadcasts it;
when the remaining time is zero the thread fires the expiry transition
exactly once — the state becomes Expired with the exit unlocked and
game_over is broadcast, the thread terminates — and a terminated thread
never changes the state again. -/
theorem c6_tick_invariant (s : GameState) :
    (phaseOf s = Phase.Running → 0 < s.time_remaining →
        countdown_timer_step TickerPc.looping s =
          { pc := TickerPc.looping
            st := { s with time_remaining := s.time_remaining - 1 }
            evs := [(Dest.everyone,
                     Event.timer_update (s.time_remaining - 1))] }) ∧
    (phaseOf s = Phase.Running → s.time_remaining = 0 →
        countdown_timer_step TickerPc.looping s =
          { pc := TickerPc.finished
            st := { s with timer_running := false, reception_unlocked := true }
            evs := [(Dest.everyone, Event.game_over)] } ∧
        phaseOf { s with
            timer_running := false, reception_unlocked := true } =
          Phase.Expired) ∧
    countdown_timer_step TickerPc.finished s =
      { pc := TickerPc.finished, st := s, evs := [] } := by
  refine ⟨?_, ?_, rfl⟩
  · intro hph hpos
    obtain ⟨-, -, hrun⟩ := (phaseOf_eq_running s).1 hph
    unfold countdown_timer_step
    simp [hrun, hpos]
  · intro hph hzero
    obtain ⟨hab, hac, hrun⟩ := (phaseOf_eq_running s).1 hph
    constructor
    · unfold countdown_timer_step
      simp [hrun, hzero]
    · unfold phaseOf
      simp [hab, hac, hzero]

/-- Witness for C6: one tick of the fresh running state counts 1800 down
to 1799, and a running state with zero seconds left expires. -/
theorem c6_witness :
    countdown_timer_step TickerPc.looping
        (handle_start_timer initial_game_state 0).1 =
      { pc := TickerPc.looping
        st := { (handle_start_timer initial_game_state 0).1 with
                  time_remaining := 1799 }
        evs := [(Dest.everyone, Event.timer_update 1799)] } ∧
    phaseOf { (handle_start_timer initial_game_state 0).1 with
        timer_running := false, reception_unlocked := true,
        time_remaining := 0 } = Phase.Expired := by
  constructor
  · exact (c6_tick_invariant
      (handle_start_timer initial_game_state 0).1).1 (by decide) (by decide)
  · exact ((c6_tick_invariant
      { (handle_start_timer initial_game_state 0).1 with
          time_remaining := 0 }).2.1 (by decide) rfl).2

/-- Counterexample to C7: after starting the timer at clock 42, the stop
command does not restore the exact initial state — the start timestamp
survives it. -/
theorem c7_counterexample :
    (handle_stop_timer (handle_start_timer initial_game_state 42).1).1 ≠
      initial_game_state ∧
    (handle_stop_timer
        (handle_start_timer initial_game_state 42).1).1.start_time =
      some 42 ∧
    initial_game_state.start_time = none := by
  decide

/-- C7 amended: reset restores exactly the initial state from every
state; stop restores every field of the initial state except start_time,
which it leaves unchanged (that field is never read by any handler); in
particular after any start → ticks → stop sequence the remaining time is
the full 1800 seconds and the phase is Idle again. -/
theorem c7_stop_reset_restore (s : GameState) :
    (handle_reset_game s).1 = initial_game_state ∧
    (handle_stop_timer s).1 =
      { initial_game_state with start_time := s.start_time } ∧
    (handle_stop_timer s).1.time_remaining = FULL_DURATION ∧
    phaseOf (handle_stop_timer s).1 = Phase.Idle := by
  refine ⟨rfl, rfl, rfl, ?_⟩
  unfold phaseOf handle_stop_timer
  simp [FULL_DURATION]
theorem tick_destruct_inv_step (pc : TickerPc) (s : GameState)
    (ih : s.self_destruct_active = true → s.self_destruct_aborted = false) :
    (countdown_timer_step pc s).st.self_destruct_active = true →
    (countdown_timer_step pc s).st.self_destruct_aborted = false := by
  unfold countdown_timer_step
  repeat' split
  all_goals exact ih

theorem press_destruct_inv_step (s : GameState) (loc : Location) (now : Int)
    (ih : s.self_destruct_active = true → s.self_destruct_aborted = false) :
    (handle_abort_button s loc now).1.self_destruct_active = true →
    (handle_abort_button s loc now).1.self_destruct_aborted = false := by
  unfold handle_abort_button
  split
  · exact ih
  · rcases hb1 : (set_button s.abort_buttons loc now).reception with _ | t1 <;>
      rcases hb2 : (set_button s.abort_buttons loc now).server_room with _ | t2 <;>
      simp only [hb1, hb2] <;>
      first
        | exact ih
        | (split <;> (intro hx; exact absurd hx (by simp)))

theorem active_imp_not_aborted (s : GameState) (h : ReachableNoResubmit s) :
    s.self_destruct_active = true → s.self_destruct_aborted = false := by
  induction h with
  | init => intro hx; rfl
  | start s now _ _ => intro hx; rfl
  | tick s pc _ ih => exact tick_destruct_inv_step pc s ih
  | pause s _ ih =>
      unfold handle_pause_timer
      split
      · exact ih
      · exact ih
  | resume s _ ih =>
      unfold handle_resume_timer
      split
      · exact ih
      · exact ih
  | stop s _ _ => intro hx; exact absurd hx (by simp [handle_stop_timer])
  | reset s _ _ => intro hx; rfl
  | code s c _ hres ih =>
      by_cases hc : c = TRANSMISSION_CODE
      · unfold handle_transmission_code
        rw [if_pos hc]
        intro _
        exact hres hc
      · unfold handle_transmission_code
        rw [if_neg hc]
        exact ih
  | press s loc now _ ih => exact press_destruct_inv_step s loc now ih

/-- Reachable state refuting C8 as stated: start, submit the correct
code, press both abort buttons simultaneously (abort succeeds), then
submit the correct code again. -/
def resubmit_after_abort_state : GameState :=
  (handle_transmission_code
    (handle_abort_button
      (handle_abort_button
        (handle_transmission_code
          (handle_start_timer initial_game_state 0).1
          TRANSMISSION_CODE).1
        Location.reception 0).1
      Location.server_room 0).1
    TRANSMISSION_CODE).1

/-- Counterexample to C8: after a successful abort, re-submitting the
correct transmission code leaves self_destruct_aborted set while turning
self_destruct_active back on, so selfDestructActive is true while the
phase is Aborted rather than TransmissionDown. -/
theorem c8_counterexample :
    resubmit_after_abort_state.self_destruct_active = true ∧
    phaseOf resubmit_after_abort_state = Phase.Aborted ∧
    phaseOf resubmit_after_abort_state ≠ Phase.TransmissionDown := by
  decide

/-- C8 amended: the equivalence between selfDestructActive and phase
TransmissionDown holds in every state reachable without re-submitting the
correct transmission code after a successful abort; that one command
sequence (see the counterexample) makes selfDestructActive true in phase
Aborted and is the only way to break the equivalence. -/
theorem c8_active_iff_transmission_down (s : GameState)
    (h : ReachableNoResubmit s) :
    s.self_destruct_active = true ↔ phaseOf s = Phase.TransmissionDown := by
  constructor
  · intro ha
    exact (phaseOf_eq_transmissionDown s).2 ⟨ha, active_imp_not_aborted s h ha⟩
  · intro hp
    exact ((phaseOf_eq_transmissionDown s).1 hp).1

/-- Witness for C8 amended: in the reachable state reached by start then
correct code, selfDestructActive is true and the phase is indeed
TransmissionDown. -/
theorem c8_witness :
    phaseOf (handle_transmission_code
      (handle_start_timer initial_game_state 0).1 TRANSMISSION_CODE).1 =
    Phase.TransmissionDown := by
  exact (c8_active_iff_transmission_down
    (handle_transmission_code
      (handle_start_timer initial_game_state 0).1 TRANSMISSION_CODE).1
    (ReachableNoResubmit.code (handle_start_timer initial_game_state 0).1
      TRANSMISSION_CODE
      (ReachableNoResubmit.start initial_game_state 0
        ReachableNoResubmit.init)
      (fun _ => rfl))).1 rfl

/-- C9: pausing while the timer is not running is a no-op (state kept,
nothing emitted), resuming while the timer is running is a no-op, and on
the game state both pause and resume are idempotent. -/
theorem c9_pause_resume_idempotent (s : GameState) :
    (s.timer_running = false → handle_pause_timer s = (s, [])) ∧
    (s.timer_running = true → handle_resume_timer s = (s, [])) ∧
    (handle_pause_timer (handle_pause_timer s).1).1 =
      (handle_pause_timer s).1 ∧
    (handle_resume_timer (handle_resume_timer s).1).1 =
      (handle_resume_timer s).1 := by
  refine ⟨?_, ?_, ?_, ?_⟩
  · intro h
    unfold handle_pause_timer
    simp [h]
  · intro h
    unfold handle_resume_timer
    simp [h]
  · unfold handle_pause_timer
    cases h : s.timer_running <;> simp [h]
  · unfold handle_resume_timer
    cases h : s.timer_running <;> by_cases hr : s.time_remaining > 0 <;>
      simp [h, hr]

/-- Witness for C9: pause is a no-op on the (non-running) initial state
and resume is a no-op on the freshly started (running) state. -/
theorem c9_witness :
    handle_pause_timer initial_game_state = (initial_game_state, []) ∧
    handle_resume_timer (handle_start_timer initial_game_state 0).1 =
      ((handle_start_timer initial_game_state 0).1, []) := by
  exact ⟨(c9_pause_resume_idempotent initial_game_state).1 rfl,
         (c9_pause_resume_idempotent
           (handle_start_timer initial_game_state 0).1).2.1 rfl⟩

/-- C10: whenever the phase is not TransmissionDown (self-destruct not
active, or the abort already resolved), an abort press from either
location leaves the state untouched and emits nothing at all. -/
theorem c10_press_outside_episode_ignored (s : GameState) (loc : Location)
    (now : Int) (h : phaseOf s ≠ Phase.TransmissionDown) :
    handle_abort_button s loc now = (s, []) := by
  have hg : (!s.self_destruct_active || s.self_destruct_aborted) = true := by
    cases hac : s.self_destruct_active
    · rfl
    · cases hab : s.self_destruct_aborted
      · exact absurd ((phaseOf_eq_transmissionDown s).2 ⟨hac, hab⟩) h
      · simp
  unfold handle_abort_button
  rw [if_pos hg]

/-- Witness for C10: a reception press in the initial (Idle) state is
silently discarded. -/
theorem c10_witness :
    handle_abort_button initial_game_state Location.reception 0 =
      (initial_game_state, []) := by
  exact c10_press_outside_episode_ignored initial_game_state
    Location.reception 0 (by decide)
